import Mathlib

/-!
Shallow embedding of the notifications-delivery gateway (src/app.py).

The program is an AMQP-to-HTTP gateway built on Flask and pika.  The
broker-facing primitives (opening a blocking connection, queue_declare,
queue_bind, queue_delete, closing a connection) are modelled as operations
consulting a BrokerEnv oracle that decides which calls fail and with which
error, while threading a BrokerState that records the trace of broker
interactions (so side effects such as cleanup deletes, connection attempts
and connection closes are observable) and a counter of connection attempts.
Python exceptions are modelled with Except: pika errors are either
channelClosed (the only exception class the program catches,
pika.exceptions.ChannelClosed) or otherError (any other pika failure, e.g.
a connection error while the broker is unreachable).  Flask abort(400) is
modelled by the badRequest response; an exception escaping a handler is the
serverError response (Flask turns it into a 500, not a 400).
-/

set_option autoImplicit false

namespace Delivery

/-- A pika exception: channelClosed models pika.exceptions.ChannelClosed
(the only class the program catches); otherError models every other broker
failure, e.g. a connection error while the broker is unreachable. -/
inductive PikaError where
  | channelClosed (reason : String)
  | otherError (reason : String)
  deriving DecidableEq, Repr

/-- Whether an error is the ChannelClosed class caught by the program. -/
def PikaError.isChannelClosed : PikaError → Bool
  | .channelClosed _ => true
  | .otherError _ => false

/-- One observable interaction with the broker.  Connections are identified
by their attempt number: connectAttempt n is the n-th call to
get_broker_connection, and connected n is recorded when that call succeeds
and yields a live connection. -/
inductive BrokerEvent where
  | connectAttempt (n : Nat)
  | connected (n : Nat)
  | queueDeclare (queue : String) (durable : Bool)
  | queueBind (exchange : String) (queue : String) (routingKey : String)
  | queueDelete (queue : String) (ifEmpty : Bool)
  | connClose (n : Nat)
  deriving DecidableEq, Repr

/-- The observable state threaded through an operation: the trace of broker
interactions performed so far and the number of connection attempts made. -/
structure BrokerState where
  trace : List BrokerEvent
  connCount : Nat
  deriving DecidableEq, Repr

/-- The state at the start of an HTTP request: nothing has happened yet. -/
def BrokerState.init : BrokerState := ⟨[], 0⟩

/-- Append an event to the trace. -/
def BrokerState.emit (s : BrokerState) (e : BrokerEvent) : BrokerState :=
  { s with trace := s.trace ++ [e] }

/-- The oracle deciding the behaviour of the broker and of the randomness
source during one request: freshKey is the value generate_queue_key yields,
connectFail n the outcome of the n-th connection attempt, and the other
fields the outcomes of the channel operations, as functions of their
arguments (none means the call succeeds). -/
structure BrokerEnv where
  freshKey : String
  connectFail : Nat → Option PikaError
  declareFail : String → Option PikaError
  bindFail : String → String → String → Option PikaError
  deleteFail : String → Bool → Option PikaError

/-- Model of get_broker_connection together with the channel call on the
resulting connection: opens a fresh connection to the broker (each call is
an independent connection).  On success returns the connection id. -/
def get_broker_connection (env : BrokerEnv) (s : BrokerState) :
    Except PikaError Nat × BrokerState :=
  let n := s.connCount
  let s := { trace := s.trace ++ [.connectAttempt n], connCount := n + 1 }
  match env.connectFail n with
  | some e => (.error e, s)
  | none => (.ok n, s.emit (.connected n))

/-- Model of queue_declare on a channel, with its durable flag. -/
def queue_declare (env : BrokerEnv) (durable : Bool) (queue : String)
    (s : BrokerState) : Except PikaError Unit × BrokerState :=
  let s := s.emit (.queueDeclare queue durable)
  match env.declareFail queue with
  | some e => (.error e, s)
  | none => (.ok (), s)

/-- Model of queue_bind on a channel. -/
def queue_bind (env : BrokerEnv) (exchange : String) (queue : String)
    (routingKey : String) (s : BrokerState) :
    Except PikaError Unit × BrokerState :=
  let s := s.emit (.queueBind exchange queue routingKey)
  match env.bindFail exchange queue routingKey with
  | some e => (.error e, s)
  | none => (.ok (), s)

/-- Model of queue_delete on a channel, with its if_empty flag. -/
def queue_delete (env : BrokerEnv) (queue : String) (ifEmpty : Bool)
    (s : BrokerState) : Except PikaError Unit × BrokerState :=
  let s := s.emit (.queueDelete queue ifEmpty)
  match env.deleteFail queue ifEmpty with
  | some e => (.error e, s)
  | none => (.ok (), s)

/-- Model of closing a connection: always succeeds. -/
def connection_close (conn : Nat) (s : BrokerState) : BrokerState :=
  s.emit (.connClose conn)

/-- Model of get_queue_name: map a queue name with its key by prefixing. -/
def get_queue_name (queue_key : String) : String :=
  "delivery-" ++ queue_key

/-- Model of delete_broker_queue: opens a connection and deletes the queue
with if_empty set to the negation of force_queue_deletion; the connection
is closed only after a successful delete (a failing delete raises before
the closing line is reached). -/
def delete_broker_queue (env : BrokerEnv) (queue_name : String)
    (force_queue_deletion : Bool) (s : BrokerState) :
    Except PikaError Unit × BrokerState :=
  match get_broker_connection env s with
  | (.error e, s) => (.error e, s)
  | (.ok conn, s) =>
    match queue_delete env queue_name (!force_queue_deletion) s with
    | (.error e, s) => (.error e, s)
    | (.ok _, s) => (.ok (), connection_close conn s)

/-- Model of add_broker_queue: generates a key, derives the queue name,
connects, declares the queue durable, binds it; on a ChannelClosed bind
failure it attempts delete_broker_queue with force set to true over a new
connection, swallowing only a ChannelClosed raised by the cleanup, then
re-raises the original bind error; any other exception (from bind, or a
non-ChannelClosed one from the cleanup) propagates as is.  The first
connection is closed only on the fully successful path. -/
def add_broker_queue (env : BrokerEnv) (exchange_name : String)
    (routing_key : String) (s : BrokerState) :
    Except PikaError String × BrokerState :=
  let queue_key := env.freshKey
  let queue_name := get_queue_name queue_key
  match get_broker_connection env s with
  | (.error e, s) => (.error e, s)
  | (.ok conn, s) =>
    match queue_declare env true queue_name s with
    | (.error e, s) => (.error e, s)
    | (.ok _, s) =>
      match queue_bind env exchange_name queue_name routing_key s with
      | (.ok _, s) => (.ok queue_key, connection_close conn s)
      | (.error e, s) =>
        match e with
        | .channelClosed reason =>
          match delete_broker_queue env queue_name true s with
          | (.ok _, s) => (.error (.channelClosed reason), s)
          | (.error e2, s) =>
            match e2 with
            | .channelClosed _ => (.error (.channelClosed reason), s)
            | .otherError m => (.error (.otherError m), s)
        | .otherError m => (.error (.otherError m), s)

/-- A JSON value appearing in a request body: the program only inspects
strings and booleans. -/
inductive Jval where
  | str (s : String)
  | bool (b : Bool)
  deriving DecidableEq, Repr

/-- Python string rendering of a JSON value, for values flowing into string
positions. -/
def Jval.toStr : Jval → String
  | .str s => s
  | .bool b => if b then "True" else "False"

/-- Python truthiness of a JSON value. -/
def Jval.truthy : Jval → Bool
  | .str s => !s.isEmpty
  | .bool b => b

/-- A parsed JSON object body, as an association list. -/
abbrev JsonObject := List (String × Jval)

/-- Python truthiness of the parsed request body: an absent or unparsable
body (None) and the empty object are both falsy. -/
def json_truthy : Option JsonObject → Bool
  | none => false
  | some o => !o.isEmpty

/-- Model of get_variable_from_request: the value under the key in the
request JSON, or the default value. -/
def get_variable_from_request (body : JsonObject) (key : String)
    (default_value : Option Jval) : Option Jval :=
  match List.lookup key body with
  | some v => some v
  | none => default_value

/-- Model of get_exchange_from_request composed with
get_default_exchange_name: the caller-supplied exchange, else the
configured default; none models the abort(400) raised when neither
exists. -/
def get_exchange_from_request (default_exchange : Option String)
    (body : JsonObject) : Option String :=
  match get_variable_from_request body ("exchange") none with
  | some v => some v.toStr
  | none => default_exchange

/-- The routing key resolved by register_consumer: the routing-key field of
the body, defaulting to the match-all pattern. -/
def resolve_routing_key (body : JsonObject) : String :=
  ((get_variable_from_request body ("routing-key") (some (.str ("*")))).getD
    (.str ("*"))).toStr

/-- The force flag resolved by unregister_consumer: the force field of the
body, defaulting to False, used for its Python truthiness. -/
def resolve_force (body : JsonObject) : Bool :=
  ((get_variable_from_request body ("force") (some (.bool false))).getD
    (.bool false)).truthy

/-- The HTTP response of a handler: a 200 JSON body, the 400 produced by
abort(400) (directly or via error_handler), or an exception escaping the
handler (which Flask turns into a 500, not a 400). -/
inductive HttpResponse where
  | ok (body : JsonObject)
  | badRequest
  | serverError (e : PikaError)
  deriving DecidableEq, Repr

/-- Model of register_consumer: rejects a falsy body, resolves the exchange
(aborting 400 when none is available) and the routing key, calls
add_broker_queue, catches only ChannelClosed (mapped by error_handler to a
400) and answers a body with the key field on success. -/
def register_consumer (env : BrokerEnv) (default_exchange : Option String)
    (body : Option JsonObject) (s : BrokerState) : HttpResponse × BrokerState :=
  if !json_truthy body then (.badRequest, s)
  else
    let j := body.getD []
    match get_exchange_from_request default_exchange j with
    | none => (.badRequest, s)
    | some exchange_name =>
      match add_broker_queue env exchange_name (resolve_routing_key j) s with
      | (.ok queue_key, s) => (.ok [(("key"), .str queue_key)], s)
      | (.error (.channelClosed _), s) => (.badRequest, s)
      | (.error e, s) => (.serverError e, s)

/-- Model of unregister_consumer: rejects a falsy body or a missing key
field, derives the queue name from the key, resolves the force flag, calls
delete_broker_queue, catches only ChannelClosed (mapped to a 400) and on
success answers with the queue name in the key field. -/
def unregister_consumer (env : BrokerEnv) (body : Option JsonObject)
    (s : BrokerState) : HttpResponse × BrokerState :=
  if !json_truthy body then (.badRequest, s)
  else
    let j := body.getD []
    match List.lookup ("key") j with
    | none => (.badRequest, s)
    | some keyVal =>
      let queue := get_queue_name keyVal.toStr
      match delete_broker_queue env queue (resolve_force j) s with
      | (.ok _, s) =>
        (.ok [(("key"), .str queue), (("success"), .bool true),
              (("result"), .str ("Queue deletion request sent to the broker."))], s)
      | (.error (.channelClosed _), s) => (.badRequest, s)
      | (.error e, s) => (.serverError e, s)

/-- Modelled from the spec: the name-to-key direction of the QueueName and
QueueKey correspondence, absent from the source, obtained by stripping the
fixed prefix from the queue name. -/
def queue_key_of_name (queue_name : String) : String :=
  ⟨queue_name.data.drop (String.length ("delivery-"))⟩

/-- Every connection that was successfully opened during the trace has also
been closed. -/
def conns_released (s : BrokerState) : Bool :=
  (List.range s.connCount).all fun n =>
    !(s.trace.contains (.connected n)) || s.trace.contains (.connClose n)

/-- The outcome of the compensating cleanup attempt performed after a
failed bind, as a function of the oracle: the cleanup runs on connection
attempt 1 and issues a forced delete (if_empty false) of the queue. -/
def cleanup_error (env : BrokerEnv) (queue_name : String) : Option PikaError :=
  match env.connectFail 1 with
  | some e => some e
  | none => env.deleteFail queue_name false

/-- Oracle for a run where every broker operation succeeds. -/
def envAllOk : BrokerEnv :=
  ⟨"6b2d", fun _ => none, fun _ => none, fun _ _ _ => none, fun _ _ => none⟩

/-- Oracle for a run where the bind fails with ChannelClosed and the
compensating cleanup succeeds. -/
def envBindFailsCleanupOk : BrokerEnv :=
  ⟨"42aa", fun _ => none, fun _ => none,
   fun _ _ _ => some (.channelClosed ("404 NOT_FOUND")), fun _ _ => none⟩

/-- Oracle for a run where the bind fails with ChannelClosed and the
cleanup connection attempt fails with a non-ChannelClosed error. -/
def envCleanupConnRefused : BrokerEnv :=
  ⟨"1f2e", fun n => if n == 0 then none else some (.otherError ("broker unreachable")),
   fun _ => none, fun _ _ _ => some (.channelClosed ("404 NOT_FOUND")),
   fun _ _ => none⟩

/-- Oracle for a run where the bind fails with ChannelClosed and the
cleanup delete fails with a non-ChannelClosed error. -/
def envCleanupDeleteReset : BrokerEnv :=
  ⟨"9c3d", fun _ => none, fun _ => none,
   fun _ _ _ => some (.channelClosed ("404 NOT_FOUND")),
   fun _ ifEmpty => if ifEmpty then none else some (.otherError ("socket reset"))⟩

/-- Oracle for a run where the bind fails with ChannelClosed and the
cleanup delete fails with ChannelClosed. -/
def envCleanupDeleteLocked : BrokerEnv :=
  ⟨"7a1b", fun _ => none, fun _ => none,
   fun _ _ _ => some (.channelClosed ("404 NOT_FOUND")),
   fun _ ifEmpty => if ifEmpty then none else some (.channelClosed ("405 RESOURCE_LOCKED"))⟩

/-- Oracle for a run where every connection attempt fails with a
non-ChannelClosed error, as an unreachable broker does. -/
def envBrokerUnreachable : BrokerEnv :=
  ⟨"5e6f", fun _ => some (.otherError ("broker unreachable")), fun _ => none,
   fun _ _ _ => none, fun _ _ => none⟩

/-- Oracle for a broker holding a non-empty queue: an empty-conditioned
delete is rejected with ChannelClosed, a forced delete succeeds. -/
def envRejectNonEmpty : BrokerEnv :=
  ⟨"8d9e", fun _ => none, fun _ => none, fun _ _ _ => none,
   fun _ ifEmpty => if ifEmpty then some (.channelClosed ("406 PRECONDITION_FAILED")) else none⟩

/-- The final state of a fully successful registration under envAllOk with
exchange events and routing key orders.x. -/
def wRegisterSuccessState : BrokerState :=
  ⟨[.connectAttempt 0, .connected 0, .queueDeclare ("delivery-6b2d") true,
    .queueBind ("events") ("delivery-6b2d") ("orders.x"), .connClose 0], 1⟩

/-- The final state of a fully successful registration under envAllOk with
exchange logs and routing key app.x. -/
def wRegisterSuccessState2 : BrokerState :=
  ⟨[.connectAttempt 0, .connected 0, .queueDeclare ("delivery-6b2d") true,
    .queueBind ("logs") ("delivery-6b2d") ("app.x"), .connClose 0], 1⟩

/-- The final state of a registration under envBindFailsCleanupOk: the bind
fails and the compensating cleanup runs to completion. -/
def wBindFailState : BrokerState :=
  ⟨[.connectAttempt 0, .connected 0, .queueDeclare ("delivery-42aa") true,
    .queueBind ("events") ("delivery-42aa") ("*"), .connectAttempt 1,
    .connected 1, .queueDelete ("delivery-42aa") false, .connClose 1], 2⟩

/-- Helper: a successful add_broker_queue from the initial state returns
the fresh key and performs exactly connect, durable declare, bind and
close. -/
theorem add_broker_queue_ok_elim (env : BrokerEnv) (ex rk k : String)
    (s' : BrokerState)
    (h : add_broker_queue env ex rk BrokerState.init = (.ok k, s')) :
    k = env.freshKey ∧
    s' = ⟨[.connectAttempt 0, .connected 0,
           .queueDeclare (get_queue_name env.freshKey) true,
           .queueBind ex (get_queue_name env.freshKey) rk, .connClose 0], 1⟩ := by
  rcases hc : env.connectFail 0 with _ | e
  case some =>
    simp [add_broker_queue, get_broker_connection, BrokerState.init, hc] at h
  case none =>
    rcases hd : env.declareFail (get_queue_name env.freshKey) with _ | e
    case some =>
      simp [add_broker_queue, get_broker_connection, queue_declare,
            BrokerState.init, BrokerState.emit, hc, hd] at h
    case none =>
      rcases hb : env.bindFail ex (get_queue_name env.freshKey) rk with _ | e
      case some =>
        rcases e with r | r
        · rcases hc1 : env.connectFail 1 with _ | e1
          · rcases hdel : env.deleteFail (get_queue_name env.freshKey) false with _ | e2
            · simp [add_broker_queue, get_broker_connection, queue_declare, queue_bind,
                    delete_broker_queue, queue_delete, connection_close,
                    BrokerState.init, BrokerState.emit, hc, hd, hb, hc1, hdel] at h
            · rcases e2 with m | m <;>
                simp [add_broker_queue, get_broker_connection, queue_declare, queue_bind,
                      delete_broker_queue, queue_delete, connection_close,
                      BrokerState.init, BrokerState.emit, hc, hd, hb, hc1, hdel] at h
          · rcases e1 with m | m <;>
              simp [add_broker_queue, get_broker_connection, queue_declare, queue_bind,
                    delete_broker_queue, queue_delete, connection_close,
                    BrokerState.init, BrokerState.emit, hc, hd, hb, hc1] at h
        · simp [add_broker_queue, get_broker_connection, queue_declare, queue_bind,
                BrokerState.init, BrokerState.emit, hc, hd, hb] at h
      case none =>
        simp [add_broker_queue, get_broker_connection, queue_declare, queue_bind,
              connection_close, BrokerState.init, BrokerState.emit, hc, hd, hb] at h
        exact ⟨h.1.symm, h.2.symm⟩

/-- Helper: a successful delete_broker_queue from the initial state
performs exactly connect, delete with the negated force flag, and close. -/
theorem delete_broker_queue_ok_elim (env : BrokerEnv) (qn : String)
    (force : Bool) (u : Unit) (s' : BrokerState)
    (h : delete_broker_queue env qn force BrokerState.init = (.ok u, s')) :
    s' = ⟨[.connectAttempt 0, .connected 0, .queueDelete qn (!force),
           .connClose 0], 1⟩ := by
  rcases hc : env.connectFail 0 with _ | e
  case some =>
    simp [delete_broker_queue, get_broker_connection, BrokerState.init, hc] at h
  case none =>
    rcases hd : env.deleteFail qn (!force) with _ | e
    case some =>
      simp [delete_broker_queue, get_broker_connection, queue_delete,
            BrokerState.init, BrokerState.emit, hc, hd] at h
    case none =>
      simp [delete_broker_queue, get_broker_connection, queue_delete, connection_close,
            BrokerState.init, BrokerState.emit, hc, hd] at h
      exact h.symm

/-- Helper: stripping the fixed prefix from a derived queue name recovers
the key. -/
theorem queue_key_of_name_get_queue_name (k : String) :
    queue_key_of_name (get_queue_name k) = k := by
  cases k with
  | mk d =>
    simp [queue_key_of_name, get_queue_name, String.append, String.length]

/-- C1 (corrected): on a register run whose declare succeeds and whose bind
fails with ChannelClosed, the gateway attempts the compensating cleanup
over a new connection (attempt 1) and issues a forced delete of the
just-declared queue name whenever that connection opens; the original bind
error is propagated when the cleanup succeeds or itself fails with
ChannelClosed, but a cleanup failure of any other kind is propagated in
place of the original bind error. -/
theorem bind_failure_cleanup_and_propagation (env : BrokerEnv)
    (ex rk reason : String)
    (hc : env.connectFail 0 = none)
    (hd : env.declareFail (get_queue_name env.freshKey) = none)
    (hb : env.bindFail ex (get_queue_name env.freshKey) rk =
      some (.channelClosed reason)) :
    BrokerEvent.connectAttempt 1 ∈
      (add_broker_queue env ex rk BrokerState.init).2.trace ∧
    (env.connectFail 1 = none →
      BrokerEvent.queueDelete (get_queue_name env.freshKey) false ∈
        (add_broker_queue env ex rk BrokerState.init).2.trace) ∧
    (cleanup_error env (get_queue_name env.freshKey) = none →
      (add_broker_queue env ex rk BrokerState.init).1 =
        .error (.channelClosed reason)) ∧
    (∀ m, cleanup_error env (get_queue_name env.freshKey) =
        some (.channelClosed m) →
      (add_broker_queue env ex rk BrokerState.init).1 =
        .error (.channelClosed reason)) ∧
    (∀ m, cleanup_error env (get_queue_name env.freshKey) =
        some (.otherError m) →
      (add_broker_queue env ex rk BrokerState.init).1 =
        .error (.otherError m)) := by
  rcases hc1 : env.connectFail 1 with _ | e1
  · rcases hdel : env.deleteFail (get_queue_name env.freshKey) false with _ | e2
    · simp [add_broker_queue, get_broker_connection, queue_declare, queue_bind,
            delete_broker_queue, queue_delete, connection_close, cleanup_error,
            BrokerState.init, BrokerState.emit, hc, hd, hb, hc1, hdel]
    · rcases e2 with m | m <;>
        simp [add_broker_queue, get_broker_connection, queue_declare, queue_bind,
              delete_broker_queue, queue_delete, connection_close, cleanup_error,
              BrokerState.init, BrokerState.emit, hc, hd, hb, hc1, hdel]
  · rcases e1 with m | m <;>
      simp [add_broker_queue, get_broker_connection, queue_declare, queue_bind,
            delete_broker_queue, queue_delete, connection_close, cleanup_error,
            BrokerState.init, BrokerState.emit, hc, hd, hb, hc1]

/-- C1 counterexample: a run where the bind fails with ChannelClosed and
the cleanup connection attempt fails with a connection error; the error
propagated to the caller is the cleanup error, not the original bind
error, refuting the claim that the original bind error is always the one
propagated. -/
theorem bind_failure_cleanup_error_replaces_original :
    (add_broker_queue envCleanupConnRefused ("events") ("orders.x")
        BrokerState.init).1 = .error (.otherError ("broker unreachable")) ∧
    (add_broker_queue envCleanupConnRefused ("events") ("orders.x")
        BrokerState.init).1 ≠ .error (.channelClosed ("404 NOT_FOUND")) :=
  ⟨rfl, fun h => absurd (Except.error.inj h) (by decide)⟩

/-- C1 witness: a concrete run where the cleanup succeeds and the original
bind error is propagated. -/
theorem bind_failure_cleanup_and_propagation_witness :
    (add_broker_queue envBindFailsCleanupOk ("events") ("orders.x")
        BrokerState.init).1 = .error (.channelClosed ("404 NOT_FOUND")) :=
  (bind_failure_cleanup_and_propagation envBindFailsCleanupOk ("events")
    ("orders.x") ("404 NOT_FOUND") rfl rfl rfl).2.2.1 rfl

/-- C2 (corrected): only ChannelClosed failures raised during the
compensating cleanup are swallowed: whether the cleanup connection or the
cleanup delete fails with ChannelClosed, the original bind error is still
the one propagated. -/
theorem cleanup_channel_closed_swallowed (env : BrokerEnv)
    (ex rk reason m : String)
    (hc : env.connectFail 0 = none)
    (hd : env.declareFail (get_queue_name env.freshKey) = none)
    (hb : env.bindFail ex (get_queue_name env.freshKey) rk =
      some (.channelClosed reason)) :
    (env.connectFail 1 = some (.channelClosed m) →
      (add_broker_queue env ex rk BrokerState.init).1 =
        .error (.channelClosed reason)) ∧
    (env.connectFail 1 = none →
      env.deleteFail (get_queue_name env.freshKey) false =
        some (.channelClosed m) →
      (add_broker_queue env ex rk BrokerState.init).1 =
        .error (.channelClosed reason)) := by
  constructor
  · intro hc1
    simp [add_broker_queue, get_broker_connection, queue_declare, queue_bind,
          delete_broker_queue, queue_delete, connection_close,
          BrokerState.init, BrokerState.emit, hc, hd, hb, hc1]
  · intro hc1 hdel
    simp [add_broker_queue, get_broker_connection, queue_declare, queue_bind,
          delete_broker_queue, queue_delete, connection_close,
          BrokerState.init, BrokerState.emit, hc, hd, hb, hc1, hdel]

/-- C2 counterexample: a cleanup delete failing with a non-ChannelClosed
error is not swallowed; it surfaces to the caller and replaces the
original bind error. -/
theorem cleanup_other_error_not_swallowed :
    (add_broker_queue envCleanupDeleteReset ("events") ("orders.x")
        BrokerState.init).1 = .error (.otherError ("socket reset")) ∧
    (add_broker_queue envCleanupDeleteReset ("events") ("orders.x")
        BrokerState.init).1 ≠ .error (.channelClosed ("404 NOT_FOUND")) :=
  ⟨rfl, fun h => absurd (Except.error.inj h) (by decide)⟩

/-- C2 witness: a concrete run where the cleanup delete fails with
ChannelClosed and the original bind error is still the one propagated. -/
theorem cleanup_channel_closed_swallowed_witness :
    (add_broker_queue envCleanupDeleteLocked ("events") ("orders.x")
        BrokerState.init).1 = .error (.channelClosed ("404 NOT_FOUND")) :=
  (cleanup_channel_closed_swallowed envCleanupDeleteLocked ("events")
    ("orders.x") ("404 NOT_FOUND") ("405 RESOURCE_LOCKED") rfl rfl rfl).2 rfl rfl

/-- C3 (corrected): every broker connection acquired by add_broker_queue or
delete_broker_queue is released when the operation completes successfully;
the failing exit paths do not close the acquired connection. -/
theorem success_paths_release_connections (env : BrokerEnv)
    (ex rk qn : String) (force : Bool) :
    (∀ k s', add_broker_queue env ex rk BrokerState.init = (.ok k, s') →
      conns_released s' = true) ∧
    (∀ u s', delete_broker_queue env qn force BrokerState.init = (.ok u, s') →
      conns_released s' = true) := by
  constructor
  · intro k s' h
    have hs := add_broker_queue_ok_elim env ex rk k s' h
    rw [hs.2]
    rfl
  · intro u s' h
    have hs := delete_broker_queue_ok_elim env qn force u s' h
    rw [hs]
    rfl

/-- C3 counterexample: on a bind failure the first connection is opened but
never closed, even though the nested cleanup connection is; the connection
release invariant fails on this exit path. -/
theorem bind_failure_leaks_connection :
    BrokerEvent.connected 0 ∈
      (add_broker_queue envBindFailsCleanupOk ("events") ("orders.x")
        BrokerState.init).2.trace ∧
    BrokerEvent.connClose 0 ∉
      (add_broker_queue envBindFailsCleanupOk ("events") ("orders.x")
        BrokerState.init).2.trace ∧
    conns_released (add_broker_queue envBindFailsCleanupOk ("events")
      ("orders.x") BrokerState.init).2 = false := by
  refine ⟨by decide, by decide, by decide⟩

/-- C3 witness: a concrete fully successful registration releases its
connection. -/
theorem success_paths_release_connections_witness :
    conns_released wRegisterSuccessState = true :=
  (success_paths_release_connections envAllOk ("events") ("orders.x")
    ("q") true).1 ("6b2d") wRegisterSuccessState rfl

/-- C4 (corrected): for every successful unregister request with supplied
key k, the 200 response body key field equals the derived queue name
get_queue_name k, not the original key, alongside a success
confirmation. -/
theorem unregister_success_key_field_is_queue_name (env : BrokerEnv)
    (k : String) (j : JsonObject) (s : BrokerState)
    (hkey : List.lookup ("key") j = some (.str k))
    (hok : (delete_broker_queue env (get_queue_name k) (resolve_force j) s).1 =
      .ok ()) :
    (unregister_consumer env (some j) s).1 =
      .ok [(("key"), .str (get_queue_name k)), (("success"), .bool true),
           (("result"), .str ("Queue deletion request sent to the broker."))] := by
  have hne : j ≠ [] := by intro hj; subst hj; simp at hkey
  rcases hd : delete_broker_queue env (get_queue_name k) (resolve_force j) s
    with ⟨r, s2⟩
  rw [hd] at hok
  simp at hok
  subst hok
  simp [unregister_consumer, json_truthy, hkey, Jval.toStr, hne, hd]

/-- C4 counterexample: unregistering with key abc answers with
delivery-abc, the derived queue name, in the key field, which differs from
the supplied key. -/
theorem unregister_success_key_field_not_original_key :
    (unregister_consumer envAllOk
        (some [(("key"), Jval.str ("abc")), (("force"), Jval.bool true)])
        BrokerState.init).1 =
      .ok [(("key"), Jval.str ("delivery-abc")), (("success"), Jval.bool true),
           (("result"), Jval.str ("Queue deletion request sent to the broker."))] ∧
    Jval.str ("delivery-abc") ≠ Jval.str ("abc") :=
  ⟨rfl, by decide⟩

/-- C4 witness: a concrete successful unregister whose response key field
is the derived queue name. -/
theorem unregister_success_key_field_is_queue_name_witness :
    (unregister_consumer envAllOk (some [(("key"), Jval.str ("abc"))])
        BrokerState.init).1 =
      .ok [(("key"), Jval.str (get_queue_name ("abc"))),
           (("success"), Jval.bool true),
           (("result"), Jval.str ("Queue deletion request sent to the broker."))] :=
  unregister_success_key_field_is_queue_name envAllOk ("abc")
    [(("key"), Jval.str ("abc"))] BrokerState.init rfl rfl

/-- C5 (corrected): broker failures surfaced as ChannelClosed during
declare, bind or delete are mapped to HTTP 400 by both handlers; any other
broker failure (e.g. an unreachable broker raising a connection error)
escapes the handler as an unhandled exception instead of a 400. -/
theorem channel_closed_maps_to_400 (env : BrokerEnv) (de : Option String)
    (j j2 : JsonObject) (s : BrokerState) :
    (∀ ex m s', j ≠ [] → get_exchange_from_request de j = some ex →
      add_broker_queue env ex (resolve_routing_key j) s =
        (.error (.channelClosed m), s') →
      register_consumer env de (some j) s = (.badRequest, s')) ∧
    (∀ ex m s', j ≠ [] → get_exchange_from_request de j = some ex →
      add_broker_queue env ex (resolve_routing_key j) s =
        (.error (.otherError m), s') →
      register_consumer env de (some j) s =
        (.serverError (.otherError m), s')) ∧
    (∀ kv m s', List.lookup ("key") j2 = some kv →
      delete_broker_queue env (get_queue_name kv.toStr) (resolve_force j2) s =
        (.error (.channelClosed m), s') →
      unregister_consumer env (some j2) s = (.badRequest, s')) ∧
    (∀ kv m s', List.lookup ("key") j2 = some kv →
      delete_broker_queue env (get_queue_name kv.toStr) (resolve_force j2) s =
        (.error (.otherError m), s') →
      unregister_consumer env (some j2) s =
        (.serverError (.otherError m), s')) := by
  refine ⟨?_, ?_, ?_, ?_⟩
  · intro ex m s' hne hex hadd
    simp [register_consumer, json_truthy, hne, hex, hadd]
  · intro ex m s' hne hex hadd
    simp [register_consumer, json_truthy, hne, hex, hadd]
  · intro kv m s' hkey hdel
    have hne : j2 ≠ [] := by intro hj; subst hj; simp at hkey
    simp [unregister_consumer, json_truthy, hne, hkey, hdel]
  · intro kv m s' hkey hdel
    have hne : j2 ≠ [] := by intro hj; subst hj; simp at hkey
    simp [unregister_consumer, json_truthy, hne, hkey, hdel]

/-- C5 counterexample: with an unreachable broker the register handler does
not answer 400; the connection error escapes it as an unhandled
exception. -/
theorem unreachable_broker_escapes_handler :
    (register_consumer envBrokerUnreachable none
        (some [(("exchange"), Jval.str ("events"))]) BrokerState.init).1 =
      .serverError (.otherError ("broker unreachable")) ∧
    (register_consumer envBrokerUnreachable none
        (some [(("exchange"), Jval.str ("events"))]) BrokerState.init).1 ≠
      .badRequest :=
  ⟨rfl, by decide⟩

/-- C5 witness: a concrete register run whose bind fails with ChannelClosed
is answered with 400. -/
theorem channel_closed_maps_to_400_witness :
    register_consumer envBindFailsCleanupOk none
        (some [(("exchange"), Jval.str ("events"))]) BrokerState.init =
      (.badRequest, wBindFailState) :=
  (channel_closed_maps_to_400 envBindFailsCleanupOk none
    [(("exchange"), Jval.str ("events"))] [] BrokerState.init).1
    ("events") ("404 NOT_FOUND") wBindFailState (by decide) rfl rfl

/-- C6 (confirmed): a register request supplying no exchange field while no
default exchange is configured is rejected with 400 and the broker state is
left untouched: no connect, declare, bind or delete is attempted. -/
theorem register_no_exchange_no_default_rejected (env : BrokerEnv)
    (j : JsonObject) (s : BrokerState)
    (hx : List.lookup ("exchange") j = none) (hne : j ≠ []) :
    register_consumer env none (some j) s = (.badRequest, s) := by
  simp [register_consumer, json_truthy, get_exchange_from_request,
        get_variable_from_request, hx, hne]

/-- C6 witness: a concrete register request with a body but no exchange
field, under no configured default, is rejected without any broker
event. -/
theorem register_no_exchange_no_default_rejected_witness :
    register_consumer envAllOk none
        (some [(("routing-key"), Jval.str ("x"))]) BrokerState.init =
      (.badRequest, BrokerState.init) :=
  register_no_exchange_no_default_rejected envAllOk
    [(("routing-key"), Jval.str ("x"))] BrokerState.init rfl (by decide)

/-- C7 (confirmed): an unregister request with the force field omitted
issues a delete conditioned on the queue being empty (if_empty true), and a
broker rejection of that delete surfaces as a 400 rather than a silent
success; with force true the delete issued is unconditional (if_empty
false). -/
theorem unregister_force_semantics (env : BrokerEnv) (k reason : String)
    (j : JsonObject)
    (hc : env.connectFail 0 = none)
    (hrej : env.deleteFail (get_queue_name k) true =
      some (.channelClosed reason)) :
    (List.lookup ("key") j = some (.str k) →
      List.lookup ("force") j = none →
      BrokerEvent.queueDelete (get_queue_name k) true ∈
        (unregister_consumer env (some j) BrokerState.init).2.trace ∧
      (unregister_consumer env (some j) BrokerState.init).1 = .badRequest) ∧
    (List.lookup ("key") j = some (.str k) →
      List.lookup ("force") j = some (.bool true) →
      BrokerEvent.queueDelete (get_queue_name k) false ∈
        (unregister_consumer env (some j) BrokerState.init).2.trace) := by
  constructor
  · intro hkey hforce
    have hne : j ≠ [] := by intro hj; subst hj; simp at hkey
    simp [unregister_consumer, json_truthy, hne, hkey, hforce, resolve_force,
          get_variable_from_request, Jval.truthy, Jval.toStr,
          delete_broker_queue, get_broker_connection, queue_delete,
          BrokerState.init, BrokerState.emit, hc, hrej]
  · intro hkey hforce
    have hne : j ≠ [] := by intro hj; subst hj; simp at hkey
    rcases hdel : env.deleteFail (get_queue_name k) false with _ | e
    · simp [unregister_consumer, json_truthy, hne, hkey, hforce, resolve_force,
            get_variable_from_request, Jval.truthy, Jval.toStr,
            delete_broker_queue, get_broker_connection, queue_delete,
            connection_close, BrokerState.init, BrokerState.emit, hc, hdel]
    · rcases e with m | m <;>
        simp [unregister_consumer, json_truthy, hne, hkey, hforce, resolve_force,
              get_variable_from_request, Jval.truthy, Jval.toStr,
              delete_broker_queue, get_broker_connection, queue_delete,
              connection_close, BrokerState.init, BrokerState.emit, hc, hdel]

/-- C7 witness: a concrete unregister without a force field on a broker
that rejects empty-conditioned deletes issues an if_empty delete and is
answered with 400. -/
theorem unregister_force_semantics_witness :
    BrokerEvent.queueDelete (get_queue_name ("abc")) true ∈
      (unregister_consumer envRejectNonEmpty
        (some [(("key"), Jval.str ("abc"))]) BrokerState.init).2.trace ∧
    (unregister_consumer envRejectNonEmpty
        (some [(("key"), Jval.str ("abc"))]) BrokerState.init).1 =
      .badRequest :=
  (unregister_force_semantics envRejectNonEmpty ("abc")
    ("406 PRECONDITION_FAILED") [(("key"), Jval.str ("abc"))] rfl rfl).1 rfl rfl

/-- C8 (confirmed): every successful add_broker_queue run declares the
queue durable under the name derived from the freshly generated key, closes
its connection, and returns that key. -/
theorem add_broker_queue_success_shape (env : BrokerEnv) (ex rk k : String)
    (s' : BrokerState)
    (h : add_broker_queue env ex rk BrokerState.init = (.ok k, s')) :
    k = env.freshKey ∧
    BrokerEvent.queueDeclare (get_queue_name env.freshKey) true ∈ s'.trace ∧
    BrokerEvent.connClose 0 ∈ s'.trace := by
  obtain ⟨h1, h2⟩ := add_broker_queue_ok_elim env ex rk k s' h
  subst h2
  exact ⟨h1, by simp, by simp⟩

/-- C8 witness: a concrete successful registration returning the fresh key
after a durable declare and a connection close. -/
theorem add_broker_queue_success_shape_witness :
    ("6b2d" : String) = envAllOk.freshKey ∧
    BrokerEvent.queueDeclare (get_queue_name envAllOk.freshKey) true ∈
      wRegisterSuccessState2.trace ∧
    BrokerEvent.connClose 0 ∈ wRegisterSuccessState2.trace :=
  add_broker_queue_success_shape envAllOk ("logs") ("app.x") ("6b2d")
    wRegisterSuccessState2 rfl

/-- C9 (confirmed): get_queue_name is the pure deterministic prefixing
function: it equals the fixed prefix concatenated with the key, is
injective, and stripping the fixed prefix from a derived name recovers the
key. -/
theorem get_queue_name_pure_injective :
    (∀ k, get_queue_name k = ("delivery-" : String) ++ k) ∧
    (∀ k, get_queue_name k = get_queue_name k) ∧
    (∀ k1 k2, k1 ≠ k2 → get_queue_name k1 ≠ get_queue_name k2) ∧
    (∀ k, queue_key_of_name (get_queue_name k) = k) := by
  refine ⟨fun k => rfl, fun k => rfl, ?_, queue_key_of_name_get_queue_name⟩
  intro k1 k2 hne h
  refine hne ?_
  have hk := congrArg queue_key_of_name h
  rwa [queue_key_of_name_get_queue_name, queue_key_of_name_get_queue_name] at hk

/-- C9 witness: two distinct keys yield distinct queue names. -/
theorem get_queue_name_pure_injective_witness :
    get_queue_name ("a") ≠ get_queue_name ("b") :=
  get_queue_name_pure_injective.2.2.1 ("a") ("b") (by decide)

/-- C10 (confirmed): a body parsing to the empty JSON object is rejected by
both handlers exactly as a missing body is, with 400 and no broker
interaction. -/
theorem empty_object_body_rejected_like_missing (env : BrokerEnv)
    (de : Option String) (s : BrokerState) :
    register_consumer env de (some []) s = (.badRequest, s) ∧
    register_consumer env de none s = (.badRequest, s) ∧
    unregister_consumer env (some []) s = (.badRequest, s) ∧
    unregister_consumer env none s = (.badRequest, s) :=
  ⟨rfl, rfl, rfl, rfl⟩

end Delivery
